import Mathlib

/-
Shallow embedding of the prime_guardrails safety pipeline.

Sources:
  src/prime_guardrails/observability_tools.py  (safety_check_layer1,
      safety_check_layer2, log_agent_response)
  src/prime_guardrails/prompt.py               (TOOL_DEFINITIONS, format_tool,
      get_tool_descriptions)
  src/prime_guardrails/tools.py                (TextSafetyTool.check,
      ImageSafetyTool.check)

Python floats in this code are only the exact constants 0.0, 0.5, 1.0 and
classifier scores treated opaquely, so scores are embedded as rationals.
Side-effecting audit logging (audit_logger.log_event) is embedded as explicit
state passing: each tool takes the current audit log and returns its result
together with the new log.  A tool call that can raise (the Gemini transport
call plus json.loads in safety_check_layer2, the classifier calls in tools.py)
is embedded as an `Except String` outcome parameter: `.error e` stands for the
raised exception rendered by str(e), `.ok v` for a normal return.
-/

namespace Prime

/-- Scores (safety_score, confidence, risk_score, nsfw_score) as rationals. -/
abbrev Score := Rat

/-- Roles of the IAM module.  iam/roles.py is not under src; the three roles
USER, STAFF, ADMIN are fixed by spec section 3 and by demo/switch_user.py. -/
inductive UserRole where
  | USER
  | STAFF
  | ADMIN
deriving DecidableEq

/-- The structured stage-2 safety decision (observability_tools.py docstring
lines 78-86): safety_score, action, params, confidence, reasoning,
violated_rules.  `params` is an opaque string-keyed payload. -/
structure SafetyDecision where
  safety_score : Score
  action : String
  params : List (String × String)
  confidence : Score
  reasoning : String
  violated_rules : List String
deriving DecidableEq

/-- Audit event types.  logging.py is not under src; every call site in
observability_tools.py uses AuditEventType.USER_QUERY. -/
inductive AuditEventType where
  | USER_QUERY
deriving DecidableEq

/-- A value of the `details` dict passed to audit_logger.log_event: the call
sites pass strings, the boolean response_received, and the parsed stage-2
decision object. -/
inductive DetailVal where
  | s : String → DetailVal
  | b : Bool → DetailVal
  | d : SafetyDecision → DetailVal
deriving DecidableEq

/-- One audit-log entry as produced by audit_logger.log_event: event type,
user id, action name, details, success flag and optional error string
(spec section 3, AuditLogEntry).  The sequence number is the position in the
log list. -/
structure AuditLogEntry where
  event_type : AuditEventType
  user_id : String
  action : String
  details : List (String × DetailVal)
  success : Bool
  error : Option String
deriving DecidableEq

/-- config.IAM_CURRENT_USER_ID.  config.py is not under src; the default id
is "user" per demo/switch_user.py.  Its value is irrelevant to every theorem
below. -/
def IAM_CURRENT_USER_ID : String := "user"

/-- The audit entry logged by safety_check_layer1
(observability_tools.py lines 47-56). -/
def layer1Entry (user_input : String) : AuditLogEntry :=
  { event_type := AuditEventType.USER_QUERY
    user_id := IAM_CURRENT_USER_ID
    action := "safety_layer1_check"
    details := [("input", DetailVal.s (user_input.take 200)),
                ("model", DetailVal.s "mock_ml_classifier"),
                ("note", DetailVal.s "Mock implementation - always passes")]
    success := true
    error := none }

/-- observability_tools.py line 59: `is_safe = True` (hard-coded mock). -/
def layer1IsSafe : Bool := true

/-- observability_tools.py line 63 with risk_score = 0.0 rendered by the
f-string format `:.2f` as "0.00". -/
def layer1PassedMessage : String :=
  "✅ Layer 1 (ML) Safety Check PASSED. Risk score: 0.00. Proceeding to Layer 2."

/-- observability_tools.py line 65, same rendering of risk_score. -/
def layer1BlockedMessage : String :=
  "⚠️ Layer 1 (ML) Safety Check FAILED. Risk score: 0.00. Request blocked."

/-- safety_check_layer1 (observability_tools.py lines 30-65): logs one audit
event, then returns the passed or blocked message depending on the hard-coded
`is_safe`. -/
def safety_check_layer1 (user_input : String) (log : List AuditLogEntry) :
    String × List AuditLogEntry :=
  let log := log ++ [layer1Entry user_input]
  if layer1IsSafe then (layer1PassedMessage, log)
  else (layer1BlockedMessage, log)

/-- The audit entry logged on the stage-2 success path
(observability_tools.py lines 140-149). -/
def layer2SuccessEntry (user_input : String) (d : SafetyDecision) : AuditLogEntry :=
  { event_type := AuditEventType.USER_QUERY
    user_id := IAM_CURRENT_USER_ID
    action := "safety_layer2_check"
    details := [("input", DetailVal.s (user_input.take 200)),
                ("model", DetailVal.s "gemini-2.0-flash-live-001"),
                ("decision", DetailVal.d d)]
    success := true
    error := none }

/-- The audit entry logged on the stage-2 failure path
(observability_tools.py lines 156-162): success=False, error=str(e). -/
def layer2FailureEntry (e : String) : AuditLogEntry :=
  { event_type := AuditEventType.USER_QUERY
    user_id := IAM_CURRENT_USER_ID
    action := "safety_layer2_check_failed"
    details := []
    success := false
    error := some e }

/-- The safe-default decision built in the except branch
(observability_tools.py lines 165-172). -/
def layer2ErrorResponse (e : String) : SafetyDecision :=
  { safety_score := 1/2
    action := "escalate"
    params := []
    confidence := 0
    reasoning := "Error during safety check: " ++ e ++ ". Escalating for human review."
    violated_rules := [] }

/-- safety_check_layer2 (observability_tools.py lines 68-173).  `outcome`
models the body of the try block up to json.loads: `.ok d` is a Gemini
response whose text parsed as JSON into the payload d, `.error e` is any
raised exception (transport error, timeout, or a json.loads failure on
unparsable output), caught by the except branch.  On success the parsed
payload is logged and returned unchanged (json.dumps round-trip); on failure
the failure is logged and the escalate safe-default is returned. -/
def safety_check_layer2 (user_input : String)
    (outcome : Except String SafetyDecision) (log : List AuditLogEntry) :
    SafetyDecision × List AuditLogEntry :=
  match outcome with
  | Except.ok d => (d, log ++ [layer2SuccessEntry user_input d])
  | Except.error e => (layer2ErrorResponse e, log ++ [layer2FailureEntry e])

/-- The audit entry logged by log_agent_response
(observability_tools.py lines 190-199). -/
def responseEntry (response_summary : String) (model_used : String) : AuditLogEntry :=
  { event_type := AuditEventType.USER_QUERY
    user_id := IAM_CURRENT_USER_ID
    action := "llm_response"
    details := [("model", DetailVal.s model_used),
                ("response_received", DetailVal.b true),
                ("summary", DetailVal.s (response_summary.take 200))]
    success := true
    error := none }

/-- log_agent_response (observability_tools.py lines 176-201): logs one audit
event and returns the confirmation string. -/
def log_agent_response (response_summary : String) (model_used : String)
    (log : List AuditLogEntry) : String × List AuditLogEntry :=
  ("✅ Response logged successfully for audit trail (model: " ++ model_used ++ ")",
   log ++ [responseEntry response_summary model_used])

/-- The audit entry appended by safety_check_layer2, by outcome: the success
entry on the ok path, the failure entry on the except path. -/
def layer2LoggedEntry (user_input : String) :
    Except String SafetyDecision → AuditLogEntry
  | Except.ok d => layer2SuccessEntry user_input d
  | Except.error e => layer2FailureEntry e

/-- One entry of TOOL_DEFINITIONS (prompt.py lines 16-146): a title, the tool
call signature string, and usage notes. -/
structure ToolDef where
  title : String
  tool : String
  notes : List String
deriving DecidableEq

/-- The two role keys of the banking entries of TOOL_DEFINITIONS: "USER" and
"STAFF_ADMIN" (prompt.py line 168 picks one from the role). -/
inductive RoleKey where
  | USER
  | STAFF_ADMIN
deriving DecidableEq

/-- TOOL_DEFINITIONS["account_balance"] (prompt.py lines 18-29). -/
def account_balance : RoleKey → ToolDef
  | RoleKey.USER =>
    { title := "Check My Account Balances"
      tool := "get_account_balance(account_id)"
      notes := ["You can only view your own account balances"] }
  | RoleKey.STAFF_ADMIN =>
    { title := "Check Account Balances (Any Customer)"
      tool := "get_account_balance(account_id)"
      notes := ["You can view any customer's account balances"] }

/-- TOOL_DEFINITIONS["transaction_history"] (prompt.py lines 30-41). -/
def transaction_history : RoleKey → ToolDef
  | RoleKey.USER =>
    { title := "View My Transaction History"
      tool := "get_transaction_history(account_id, days=30)"
      notes := ["Default: Last 30 days", "You can only view your own transactions"] }
  | RoleKey.STAFF_ADMIN =>
    { title := "View Transaction History (Any Customer)"
      tool := "get_transaction_history(account_id, days=30, user_id=None)"
      notes := ["Default: Last 30 days", "You can view any customer's transactions",
                "Example: get_transaction_history(account_id, user_id=\"user123\")"] }

/-- TOOL_DEFINITIONS["list_accounts"] (prompt.py lines 42-53). -/
def list_accounts : RoleKey → ToolDef
  | RoleKey.USER =>
    { title := "List My Accounts"
      tool := "get_user_accounts()"
      notes := ["Call with NO arguments for your own accounts"] }
  | RoleKey.STAFF_ADMIN =>
    { title := "List Customer Accounts"
      tool := "get_user_accounts(user_id=None)"
      notes := ["For current user: get_user_accounts() with NO arguments",
                "For other users: get_user_accounts(user_id=\"user123\")",
                "You can view any customer's accounts"] }

/-- TOOL_DEFINITIONS["report_fraud"] (prompt.py lines 54-65). -/
def report_fraud : RoleKey → ToolDef
  | RoleKey.USER =>
    { title := "Report Fraud"
      tool := "report_fraud(account_id, description)"
      notes := [] }
  | RoleKey.STAFF_ADMIN =>
    { title := "Report Fraud (On Behalf of Customer)"
      tool := "report_fraud(account_id, description, user_id=None)"
      notes := ["Example: report_fraud(account_id=\"acc001\", description=\"...\", user_id=\"user123\")"] }

/-- TOOL_DEFINITIONS["transfer_money"] (prompt.py lines 66-85). -/
def transfer_money : RoleKey → ToolDef
  | RoleKey.USER =>
    { title := "Transfer Money Between My Accounts"
      tool := "transfer_money(from_account_id, to_account_id, amount, description=None)"
      notes := ["Transfer money between your own accounts only",
                "Example: transfer_money(from_account_id=\"acc001\", to_account_id=\"acc002\", amount=100.00, description=\"Savings\")",
                "Validates ownership of both accounts and sufficient balance"] }
  | RoleKey.STAFF_ADMIN =>
    { title := "Transfer Money Between My Accounts"
      tool := "transfer_money(from_account_id, to_account_id, amount, description=None)"
      notes := ["Transfer money between your own accounts only",
                "Example: transfer_money(from_account_id=\"acc001\", to_account_id=\"acc002\", amount=100.00)",
                "Note: STAFF/ADMIN cannot transfer on behalf of customers"] }

/-- TOOL_DEFINITIONS["safety_layer1"] (prompt.py lines 87-91). -/
def safety_layer1 : ToolDef :=
  { title := "Layer 1 Safety Check (REQUIRED FIRST - Step 1)"
    tool := "safety_check_layer1(user_input)"
    notes := ["**ALWAYS call this FIRST** for every user request",
              "Fast ML-based safety check"] }

/-- TOOL_DEFINITIONS["safety_layer2"] (prompt.py lines 92-96). -/
def safety_layer2 : ToolDef :=
  { title := "Layer 2 Safety & Compliance Analysis (REQUIRED SECOND - Step 2)"
    tool := "safety_check_layer2(user_input)"
    notes := ["**ALWAYS call this SECOND** after Layer 1 passes",
              "Returns JSON with: safety_score, compliance_score, confidence, violated_rules, risk_factors, analysis"] }

/-- TOOL_DEFINITIONS["safety_decision"] (prompt.py lines 97-101). -/
def safety_decision : ToolDef :=
  { title := "Make Safety Decision (REQUIRED THIRD - Step 3)"
    tool := "make_safe_and_compliant_decision(safety_analysis)"
    notes := ["**ALWAYS call this THIRD** with the object from Layer 2",
              "Returns JSON with: action (approve/reject/rewrite/escalate), params, reasoning"] }

/-- TOOL_DEFINITIONS["create_escalation"] (prompt.py lines 102-106). -/
def create_escalation : ToolDef :=
  { title := "Create Escalation Ticket (REQUIRED if action=\"escalate\" else skip)"
    tool := "create_escalation_ticket(user_input, reasoning)"
    notes := ["Use this when make_safe_and_compliant_decision returns \"escalate\""] }

/-- TOOL_DEFINITIONS["log_response"] (prompt.py lines 107-111). -/
def log_response : ToolDef :=
  { title := "Log Response (REQUIRED LAST - Step 5)"
    tool := "log_agent_response(response_summary, full_response)"
    notes := ["**ALWAYS call this LAST** before responding to user",
              "response_summary: Brief 1-2 sentence summary",
              "full_response: The complete text you will show to the user"] }

/-- TOOL_DEFINITIONS["list_escalations_admin"] (prompt.py lines 113-117). -/
def list_escalations_admin : ToolDef :=
  { title := "List Escalation Tickets (ADMIN ONLY)"
    tool := "list_escalation_tickets(status=None)"
    notes := ["Use when user asks to see the escalation queue or tickets"] }

/-- TOOL_DEFINITIONS["view_audit_logs"] (prompt.py lines 118-126). -/
def view_audit_logs : ToolDef :=
  { title := "View Audit Logs (ADMIN ONLY)"
    tool := "view_audit_logs(limit=10, event_type=None)"
    notes := ["Use when user asks to see logs, audit logs, or recent activity",
              "event_type options: \"user_query\", \"account_access\", \"transaction_query\", \"safety_block\", \"escalation_created\"",
              "Returns formatted audit log entries for compliance and security monitoring"] }

/-- TOOL_DEFINITIONS["list_escalations_staff"] (prompt.py lines 127-131). -/
def list_escalations_staff : ToolDef :=
  { title := "List Escalation Tickets (STAFF ONLY)"
    tool := "list_escalation_tickets(status=None)"
    notes := ["Use when user asks to see the escalation queue or tickets"] }

/-- TOOL_DEFINITIONS["resolve_escalation"] (prompt.py lines 132-140). -/
def resolve_escalation : ToolDef :=
  { title := "Resolve Escalation Ticket (STAFF/ADMIN ONLY)"
    tool := "resolve_escalation_ticket(ticket_id, resolution_note)"
    notes := ["Mark an escalation ticket as resolved",
              "Ticket remains in system with status 'resolved'",
              "Example: resolve_escalation_ticket(ticket_id=\"abc-123\", resolution_note=\"Contacted customer, issue resolved\")"] }

/-- TOOL_DEFINITIONS["list_escalations_user"] (prompt.py lines 141-145). -/
def list_escalations_user : ToolDef :=
  { title := "List My Escalation Tickets"
    tool := "list_escalation_tickets(status=None)"
    notes := ["Use when user asks to see *their own* tickets",
              "You can only see tickets created by the current user"] }

/-- format_tool (prompt.py lines 149-155): title line, tool line, one line per
note. -/
def format_tool (tool_def : ToolDef) : String :=
  "✅ **" ++ tool_def.title ++ "**\n   - Tool: " ++ tool_def.tool ++ "\n"
  ++ String.join (tool_def.notes.map (fun note => "   - " ++ note ++ "\n"))

/-- Python's str.lower(), character by character (ASCII case folding, which
is all the role strings and classifier labels here exercise). -/
def lowerStr (s : String) : String := String.mk (s.data.map Char.toLower)

/-- The try/except around UserRole(role_str.lower()) in get_tool_descriptions
(prompt.py lines 160-163): a ValueError on an unknown role string falls back
to UserRole.USER.  The enum values "user", "staff", "admin" come from
iam/roles.py, which is not under src; they are fixed by this call site
together with the uppercase names stored in config (demo/switch_user.py). -/
def parseRole (role_str : String) : UserRole :=
  let r := lowerStr role_str
  if r = "user" then UserRole.USER
  else if r = "staff" then UserRole.STAFF
  else if r = "admin" then UserRole.ADMIN
  else UserRole.USER

/-- The banking block of get_tool_descriptions (prompt.py lines 168-170):
the five banking entries at the selected role key, in source order. -/
def bankingToolDefs (role_key : RoleKey) : List ToolDef :=
  [account_balance role_key, transaction_history role_key, list_accounts role_key,
   report_fraud role_key, transfer_money role_key]

/-- The universal block of get_tool_descriptions (prompt.py lines 180-181). -/
def universalToolDefs : List ToolDef :=
  [safety_layer1, safety_layer2, safety_decision, create_escalation, log_response]

/-- The role-specific administrative block of get_tool_descriptions
(prompt.py lines 184-192). -/
def roleSpecificTools : UserRole → List ToolDef
  | UserRole.ADMIN => [list_escalations_admin, view_audit_logs, resolve_escalation]
  | UserRole.STAFF => [list_escalations_staff, resolve_escalation]
  | UserRole.USER => [list_escalations_user]

/-- The "General Banking Information" literal appended between the banking and
universal blocks (prompt.py lines 173-177). -/
def generalBankingInformation : String :=
  "✅ **General Banking Information**\n   - Answer questions about bank services, hours, policies\n   - Explain banking concepts and procedures\n   - Guide customers on how to do things\n"

/-- All ToolDef entries selected for a role by get_tool_descriptions, in
source order (banking, universal, role-specific). -/
def selectedToolDefs (role : UserRole) : List ToolDef :=
  bankingToolDefs (if role = UserRole.USER then RoleKey.USER else RoleKey.STAFF_ADMIN)
  ++ universalToolDefs ++ roleSpecificTools role

/-- get_tool_descriptions (prompt.py lines 158-194): resolve the role,
format the selected tool definitions with the general-information text in
between, and join with newlines. -/
def get_tool_descriptions (role_str : String) : String :=
  let role := parseRole role_str
  String.intercalate "\n"
    ((bankingToolDefs (if role = UserRole.USER then RoleKey.USER else RoleKey.STAFF_ADMIN)).map format_tool
     ++ [generalBankingInformation]
     ++ universalToolDefs.map format_tool
     ++ (roleSpecificTools role).map format_tool)

/-- Whether `pat` occurs as a contiguous sublist of `hay`. -/
def containsSub (hay pat : List Char) : Bool :=
  match hay with
  | [] => pat.isEmpty
  | _ :: t => pat.isPrefixOf hay || containsSub t pat

/-- Python's substring test `pat in s`. -/
def mentions (s pat : String) : Bool := containsSub s.data pat.data

/-- The underlying tool function a ToolDef exposes: the part of its call
signature before the opening parenthesis. -/
def toolFunName (t : ToolDef) : String :=
  String.mk (t.tool.data.takeWhile (fun ch => ch != '('))

/-- The set (as a list) of underlying tool function names a role is offered
by get_tool_descriptions. -/
def roleToolNames (role : UserRole) : List String :=
  (selectedToolDefs role).map toolFunName

/-- One classification of the text classifier pipeline (tools.py line 13):
a label and a score. -/
structure LabelScore where
  label : String
  score : Score
deriving DecidableEq

/-- The dict returned by TextSafetyTool.check (tools.py lines 29-33, 39). -/
structure TextSafetyResult where
  is_safe : Bool
  risk_category : String
  confidence : Score
deriving DecidableEq

/-- TextSafetyTool.check (tools.py lines 11-39).  `outcome` models the
classifier call: `.error e` is a raised exception, `.ok results` the returned
classification list.  results[0] on an empty list raises IndexError inside the
same try, so `.ok []` takes the except branch too.  The except branch returns
is_safe=True, risk_category="Error", confidence=0.0 (fail open). -/
def textSafetyCheck (outcome : Except String (List LabelScore)) : TextSafetyResult :=
  match outcome with
  | Except.error _ =>
    { is_safe := true, risk_category := "Error", confidence := 0 }
  | Except.ok [] =>
    { is_safe := true, risk_category := "Error", confidence := 0 }
  | Except.ok (r :: _) =>
    if mentions (lowerStr r.label) "offensive" then
      { is_safe := false, risk_category := "Offensive", confidence := r.score }
    else
      { is_safe := true, risk_category := "None", confidence := r.score }

/-- The dict returned by ImageSafetyTool.check (tools.py lines 73-76, 80). -/
structure ImageSafetyResult where
  is_safe : Bool
  nsfw_score : Score
deriving DecidableEq

/-- ImageSafetyTool.check (tools.py lines 46-80).  `outcome` models the body
of the try block: `.error e` is any raised exception (image load, model call),
`.ok s` the computed nsfw_score; then is_safe = nsfw_score <= 0.5.  The except
branch returns is_safe=True, nsfw_score=0.0 (fail open). -/
def imageSafetyCheck (outcome : Except String Score) : ImageSafetyResult :=
  match outcome with
  | Except.error _ => { is_safe := true, nsfw_score := 0 }
  | Except.ok s => { is_safe := decide (s ≤ 1/2), nsfw_score := s }

/-- Modelled from the spec: the capabilities of the Permission Model
(spec sections 3 and 4.1); iam/roles.py, which defines the Permission enum,
is not under src.  The listed capabilities are the spec's examples plus the
own-funds transfer capability the spec requires no role to hold on another
actor's behalf. -/
inductive Capability where
  | viewOwnResource
  | viewAnyResource
  | administerTickets
  | viewAuditLog
  | transferOwnFunds
deriving DecidableEq

/-- Modelled from the spec: capabilitiesOf (spec section 4.1); iam/roles.py is
not under src.  A static total role-to-capability mapping, monotone along
USER < STAFF < ADMIN, with viewAnyResource held by STAFF and ADMIN only. -/
def capabilitiesOf : UserRole → List Capability
  | UserRole.USER => [Capability.viewOwnResource, Capability.transferOwnFunds]
  | UserRole.STAFF => [Capability.viewOwnResource, Capability.transferOwnFunds,
                       Capability.viewAnyResource, Capability.administerTickets]
  | UserRole.ADMIN => [Capability.viewOwnResource, Capability.transferOwnFunds,
                       Capability.viewAnyResource, Capability.administerTickets,
                       Capability.viewAuditLog]

/-- Modelled from the spec: hasCapability (spec section 4.1). -/
def hasCapability (role : UserRole) (c : Capability) : Bool :=
  (capabilitiesOf role).contains c

/-- An actor as in spec section 3: id, display name, role. -/
structure Actor where
  id : String
  displayName : String
  role : UserRole
deriving DecidableEq

/-- The AccessDenied failure of the gate: it carries the capability and the
target that were denied (spec section 4.2). -/
structure AccessDenied where
  capability : Capability
  target : Option String
deriving DecidableEq

/-- A granted authorization: which actor, for which capability. -/
structure Authorization where
  actorId : String
  capability : Capability
deriving DecidableEq

/-- Modelled from the spec: the Access Control Gate's authorize operation
(spec section 4.2); iam/acl.py, which implements the gate, is not under src.
The actor must hold the capability; when a target id is present, an actor
without the any-resource capability is additionally required to equal the
target (ownership rule). -/
def authorize (a : Actor) (c : Capability) (target : Option String) :
    Except AccessDenied Authorization :=
  if hasCapability a.role c then
    match target with
    | none => Except.ok { actorId := a.id, capability := c }
    | some t =>
      if hasCapability a.role Capability.viewAnyResource || t = a.id then
        Except.ok { actorId := a.id, capability := c }
      else Except.error { capability := c, target := target }
  else Except.error { capability := c, target := target }

/-- The fast pre-filter's result contract (spec section 6): pass flag and
risk score. -/
structure PrefilterResult where
  pass : Bool
  riskScore : Score
deriving DecidableEq

/-- Modelled from the spec: the REJECT decision the Decision Engine produces
when the fast pre-filter reports not-pass (spec section 4.3, stage 1):
action REJECT with confidence 1.0. -/
def prefilterRejectDecision (pre : PrefilterResult) : SafetyDecision :=
  { safety_score := pre.riskScore
    action := "reject"
    params := []
    confidence := 1
    reasoning := "Rejected by fast pre-filter."
    violated_rules := [] }

/-- Modelled from the spec: the Decision Engine's two-stage run (spec section
4.3); the pipeline orchestration (callbacks.py fast_guardrail_callback and the
agent loop driving the stage tools) is not under src.  `deep` is the stage-2
outcome as in safety_check_layer2.  The returned Bool records whether stage 2
was consulted.  On pre-filter not-pass the engine short-circuits to the REJECT
decision with confidence 1.0 and never consults stage 2; on pass it applies
the stage-2 fail-safe (escalate on failure or on an action outside the known
set). -/
def decisionEngine (pre : PrefilterResult) (deep : Except String SafetyDecision) :
    SafetyDecision × Bool :=
  if pre.pass then
    match deep with
    | Except.error e => (layer2ErrorResponse e, true)
    | Except.ok d =>
      if d.action = "approve" || d.action = "reject" || d.action = "rewrite"
          || d.action = "escalate" then (d, true)
      else (layer2ErrorResponse ("Malformed stage-2 action: " ++ d.action), true)
  else (prefilterRejectDecision pre, false)

/-- A stage-2 payload that parses as JSON but carries an action outside the
known set {approve, reject, rewrite, escalate}. -/
def bananaPayload : SafetyDecision :=
  { safety_score := 9/10
    action := "proceed"
    params := []
    confidence := 9/10
    reasoning := "looks fine"
    violated_rules := [] }

/-- C1: whenever the stage-2 evaluator call fails (raises, times out, or its
output cannot be parsed as JSON), safety_check_layer2 returns a decision with
action "escalate" and confidence 0.0, records the failure reason in the
reasoning field, and never returns an "approve" decision. -/
theorem layer2_failsafe_on_error (user_input e : String) (log : List AuditLogEntry) :
    (safety_check_layer2 user_input (Except.error e) log).1.action = "escalate" ∧
    (safety_check_layer2 user_input (Except.error e) log).1.confidence = 0 ∧
    (safety_check_layer2 user_input (Except.error e) log).1.reasoning
      = "Error during safety check: " ++ e ++ ". Escalating for human review." ∧
    (safety_check_layer2 user_input (Except.error e) log).1.action ≠ "approve" := by
  refine ⟨rfl, by norm_num [safety_check_layer2, layer2ErrorResponse], rfl, ?_⟩
  intro hc
  simp [safety_check_layer2, layer2ErrorResponse] at hc

/-- C2 counterexample: a payload that parses as JSON with the unknown action
"proceed" is returned by safety_check_layer2 with its action unchanged — not
as an escalate decision with confidence 0.0, contrary to the claim. -/
theorem layer2_unknown_action_cex :
    bananaPayload.action ∉ ["approve", "reject", "rewrite", "escalate"] ∧
    (safety_check_layer2 "hello" (Except.ok bananaPayload) []).1.action = "proceed" ∧
    ¬ ((safety_check_layer2 "hello" (Except.ok bananaPayload) []).1.action = "escalate" ∧
       (safety_check_layer2 "hello" (Except.ok bananaPayload) []).1.confidence = 0) := by
  refine ⟨by decide, rfl, ?_⟩
  intro h
  exact absurd h.1 (by decide)

/-- C2 amended: safety_check_layer2 performs no validation of the action
field — every payload that parses as JSON, in particular one whose action is
outside the known set, is returned to the caller unchanged; only a raised
exception (transport error, timeout, unparsable output) triggers the
escalate/confidence-0.0 fail-safe. -/
theorem layer2_no_action_validation (user_input : String) (d : SafetyDecision)
    (log : List AuditLogEntry)
    (h : d.action ∉ ["approve", "reject", "rewrite", "escalate"]) :
    (safety_check_layer2 user_input (Except.ok d) log).1 = d := rfl

/-- Witness for C2 amended: the unknown-action payload is passed through. -/
theorem layer2_no_action_validation_witness :
    bananaPayload.action ∉ ["approve", "reject", "rewrite", "escalate"] ∧
    (safety_check_layer2 "hello" (Except.ok bananaPayload) []).1 = bananaPayload :=
  ⟨by decide, layer2_no_action_validation "hello" bananaPayload [] (by decide)⟩

/-- C3: when the fast pre-filter reports not-pass, the pipeline produces a
REJECT decision with confidence 1.0 and the deep stage-2 evaluator is never
consulted. -/
theorem prefilter_reject_short_circuits (pre : PrefilterResult)
    (deep : Except String SafetyDecision) (h : pre.pass = false) :
    (decisionEngine pre deep).1.action = "reject" ∧
    (decisionEngine pre deep).1.confidence = 1 ∧
    (decisionEngine pre deep).2 = false := by
  simp [decisionEngine, h, prefilterRejectDecision]

/-- Witness for C3: a concrete failing pre-filter result short-circuits. -/
theorem prefilter_reject_short_circuits_witness :
    (decisionEngine { pass := false, riskScore := 9/10 }
        (Except.error "timeout")).1.action = "reject" ∧
    (decisionEngine { pass := false, riskScore := 9/10 }
        (Except.error "timeout")).1.confidence = 1 ∧
    (decisionEngine { pass := false, riskScore := 9/10 }
        (Except.error "timeout")).2 = false :=
  prefilter_reject_short_circuits { pass := false, riskScore := 9/10 }
    (Except.error "timeout") rfl

/-- C4: each pipeline stage — safety_check_layer1, safety_check_layer2 on both
its success and failure paths, and log_agent_response — appends exactly one
audit-log entry, and the log returned with the stage's result already carries
that entry (log-before-respond). -/
theorem every_stage_appends_one_audit_entry (user_input summary model : String)
    (outcome : Except String SafetyDecision) (log : List AuditLogEntry) :
    ((safety_check_layer1 user_input log).2 = log ++ [layer1Entry user_input]
      ∧ ((safety_check_layer1 user_input log).2).length = log.length + 1)
    ∧ ((safety_check_layer2 user_input outcome log).2
        = log ++ [layer2LoggedEntry user_input outcome]
      ∧ ((safety_check_layer2 user_input outcome log).2).length = log.length + 1)
    ∧ ((log_agent_response summary model log).2 = log ++ [responseEntry summary model]
      ∧ ((log_agent_response summary model log).2).length = log.length + 1) := by
  refine ⟨⟨rfl, by simp [safety_check_layer1, layer1IsSafe]⟩, ⟨?_, ?_⟩,
          ⟨rfl, by simp [log_agent_response]⟩⟩
  · cases outcome <;> rfl
  · cases outcome <;> simp [safety_check_layer2]

/-- C5: the underlying tool-function sets exposed by get_tool_descriptions are
monotone along the privilege order: every tool function offered to USER is
offered to STAFF, and every tool function offered to STAFF is offered to
ADMIN. -/
theorem role_tool_sets_monotone :
    (∀ n ∈ roleToolNames UserRole.USER, n ∈ roleToolNames UserRole.STAFF) ∧
    (∀ n ∈ roleToolNames UserRole.STAFF, n ∈ roleToolNames UserRole.ADMIN) := by
  decide

/-- C6: an actor with the USER role (which lacks the any-resource capability)
requesting authorization against a target id different from their own id is
always denied, whatever capability is requested. -/
theorem ownership_rule_denies_other_target (id name t : String) (c : Capability)
    (h : t ≠ id) :
    authorize { id := id, displayName := name, role := UserRole.USER } c (some t)
      = Except.error { capability := c, target := some t } := by
  have hv : hasCapability UserRole.USER Capability.viewAnyResource = false := by
    cases c <;> rfl
  unfold authorize
  cases hc : hasCapability UserRole.USER c <;> simp [hc, hv, h]

/-- Witness for C6: user u1 is denied against target u2. -/
theorem ownership_rule_denies_other_target_witness :
    authorize { id := "u1", displayName := "Alice", role := UserRole.USER }
        Capability.viewOwnResource (some "u2")
      = Except.error { capability := Capability.viewOwnResource, target := some "u2" } :=
  ownership_rule_denies_other_target "u1" "Alice" "u2" Capability.viewOwnResource
    (by decide)

/-- C7: get_tool_descriptions is total over all role strings, and any role
string outside the known set {user, staff, admin} (after lowercasing) yields
exactly the least-privileged USER tool descriptions. -/
theorem unknown_role_gets_user_tools (s : String) (h1 : lowerStr s ≠ "user")
    (h2 : lowerStr s ≠ "staff") (h3 : lowerStr s ≠ "admin") :
    get_tool_descriptions s = get_tool_descriptions "user" := by
  have hu : parseRole s = UserRole.USER := by
    unfold parseRole
    simp [h1, h2, h3]
  have hu2 : parseRole "user" = UserRole.USER := rfl
  unfold get_tool_descriptions
  rw [hu, hu2]

/-- Witness for C7: the unknown role string "WIZARD" gets the USER tools. -/
theorem unknown_role_gets_user_tools_witness :
    (lowerStr "WIZARD" ≠ "user" ∧ lowerStr "WIZARD" ≠ "staff"
      ∧ lowerStr "WIZARD" ≠ "admin") ∧
    get_tool_descriptions "WIZARD" = get_tool_descriptions "user" :=
  ⟨⟨by decide, by decide, by decide⟩,
   unknown_role_gets_user_tools "WIZARD" (by decide) (by decide) (by decide)⟩

/-- C8: for every role, the transfer-money tool offered by
get_tool_descriptions never takes a user_id / on-behalf-of parameter and is
restricted to the actor's own accounts, while the STAFF/ADMIN report_fraud
tool does take a user_id parameter. -/
theorem transfer_money_never_on_behalf :
    (∀ r : UserRole, ∀ t ∈ selectedToolDefs r, toolFunName t = "transfer_money" →
        mentions t.tool "user_id" = false ∧
        "Transfer money between your own accounts only" ∈ t.notes) ∧
    mentions (report_fraud RoleKey.STAFF_ADMIN).tool "user_id" = true := by
  refine ⟨fun r => ?_, by decide⟩
  cases r <;> decide

/-- C9: the peripheral classifier wrappers fail open — when the underlying
classifier raises, TextSafetyTool.check returns is_safe true with confidence
0.0 and ImageSafetyTool.check returns is_safe true with nsfw_score 0.0. -/
theorem classifier_wrappers_fail_open (e1 e2 : String) :
    textSafetyCheck (Except.error e1)
      = { is_safe := true, risk_category := "Error", confidence := 0 } ∧
    imageSafetyCheck (Except.error e2) = { is_safe := true, nsfw_score := 0 } :=
  ⟨rfl, rfl⟩

/-- C10: safety_check_layer1 passes every input — it always returns the
Layer-1-PASSED message (with risk score 0.00), which is distinct from the
blocked message, so no request is ever rejected by stage 1. -/
theorem layer1_always_passes (user_input : String) (log : List AuditLogEntry) :
    (safety_check_layer1 user_input log).1 = layer1PassedMessage ∧
    layer1PassedMessage ≠ layer1BlockedMessage :=
  ⟨rfl, by decide⟩

end Prime

